import Mathlib

/-!
Verification of the voice-memo transcription pipeline (`src/transcribe.py`).

The Python source is shallowly embedded: pure string manipulation becomes
Lean string functions, filesystem and network effects become explicit
parameters (the prior content of the target note file, the outcome of each
model call, the outcome of reading the audio bytes), and Python exceptions
become `Except String`.
-/

set_option maxHeartbeats 1000000
set_option maxRecDepth 8192

/-- Decidable equality for `Except`, needed to evaluate results of the
embedded fallible functions with `decide`. -/
instance {ε α : Type} [DecidableEq ε] [DecidableEq α] : DecidableEq (Except ε α) := fun x y =>
  match x, y with
  | Except.ok a, Except.ok b =>
    if h : a = b then isTrue (by rw [h]) else isFalse (fun hc => h (Except.ok.injEq a b ▸ hc))
  | Except.error a, Except.error b =>
    if h : a = b then isTrue (by rw [h]) else isFalse (fun hc => h (Except.error.injEq a b ▸ hc))
  | Except.ok _, Except.error _ => isFalse (fun hc => Except.noConfusion hc)
  | Except.error _, Except.ok _ => isFalse (fun hc => Except.noConfusion hc)

/-! ### Python string primitives used by the source -/

/-- The ASCII whitespace characters stripped by Python's `str.strip()`. -/
def pySpace (c : Char) : Bool :=
  c == ' ' || c == '\t' || c == '\n' || c == '\x0b' || c == '\x0c' || c == '\r'

/-- `str.strip()` on a character list: drop whitespace from both ends. -/
def pyStripList (cs : List Char) : List Char :=
  ((cs.dropWhile pySpace).reverse.dropWhile pySpace).reverse

/-- Python `str.strip()` (no arguments): trim whitespace from both ends. -/
def pyStrip (s : String) : String :=
  String.mk (pyStripList s.data)

/-- Python `str.rstrip("\n")`: drop trailing newline characters. -/
def rstripNewlines (s : String) : String :=
  String.mk (s.data.reverse.dropWhile (fun c => c == '\n')).reverse

/-! ### NoteAppender (`append_with_spacing`, transcribe.py lines 107-116)

The target file is modelled as `Option String`: `none` when the file does
not exist, `some c` when it exists with content `c`.  The function returns
the state of the file after the call; returning the input unchanged models
"the file is neither touched nor created". -/

/-- Embedding of `append_with_spacing` from the source. -/
def append_with_spacing (current : Option String) (addition : String) : Option String :=
  let text := pyStrip addition
  if text = "" then current
  else
    let cur := Option.getD current ""
    if pyStrip cur ≠ "" then some (rstripNewlines cur ++ "\n\n" ++ text ++ "\n")
    else some (text ++ "\n")

/-- NoteAppender rules as worded in the spec (section 4.3), used to state
the refinement claim C2 against `append_with_spacing`. -/
def noteAppenderSpec (current : Option String) (text0 : String) : Option String :=
  let t := pyStrip text0
  if t = "" then current
  else
    match current with
    | none => some (t ++ "\n")
    | some existing =>
      if pyStrip existing = "" then some (t ++ "\n")
      else some (rstripNewlines existing ++ "\n\n" ++ t ++ "\n")

/-- `true` iff the string ends in exactly one newline character. -/
def endsWithOneNewline (s : String) : Bool :=
  match s.data.reverse with
  | ['\n'] => true
  | '\n' :: c :: _ => !(c == '\n')
  | _ => false

/-! ### RecordedTimeResolver (`extract_recorded_datetime`, lines 54-58)

The source runs `re.search(r"(\d{4}-\d{2}-\d{2}).*?(\d{2}\.\d{2}\.\d{2})")`
on the filename.  Leftmost-match semantics: the match starts at the first
index where the date token matches and some time token occurs at least 10
characters later; the non-greedy gap makes the time token the earliest such
occurrence.  `\d` is modelled as an ASCII digit. -/

structure DateTime where
  year : Nat
  month : Nat
  day : Nat
  hour : Nat
  minute : Nat
  second : Nat
deriving DecidableEq, Repr

/-- Does `\d{4}-\d{2}-\d{2}` match at the head of the character list? -/
def dateAt : List Char → Bool
  | y1 :: y2 :: y3 :: y4 :: s1 :: m1 :: m2 :: s2 :: d1 :: d2 :: _ =>
    y1.isDigit && y2.isDigit && y3.isDigit && y4.isDigit && s1 == '-' &&
      m1.isDigit && m2.isDigit && s2 == '-' && d1.isDigit && d2.isDigit
  | _ => false

/-- Does `\d{2}\.\d{2}\.\d{2}` match at the head of the character list? -/
def timeAt : List Char → Bool
  | h1 :: h2 :: s1 :: n1 :: n2 :: s2 :: c1 :: c2 :: _ =>
    h1.isDigit && h2.isDigit && s1 == '.' && n1.isDigit && n2.isDigit &&
      s2 == '.' && c1.isDigit && c2.isDigit
  | _ => false

/-- Offset of the first position where the time token matches. -/
def findTimeIdx : List Char → Option Nat
  | [] => none
  | c :: rest => if timeAt (c :: rest) then some 0 else (findTimeIdx rest).map (· + 1)

/-- Leftmost start of the date token that is followed (≥ 10 characters
later) by a time token, together with the position of the earliest such
time token: the group positions of the source's `re.search`. -/
def findMatchIdx : List Char → Option (Nat × Nat)
  | [] => none
  | c :: rest =>
    if dateAt (c :: rest) then
      match findTimeIdx ((c :: rest).drop 10) with
      | some k => some (0, 10 + k)
      | none => (findMatchIdx rest).map (fun p => (p.1 + 1, p.2 + 1))
    else (findMatchIdx rest).map (fun p => (p.1 + 1, p.2 + 1))

/-- The two captured groups of the source's regex search, if any. -/
def extractTokens (name : String) : Option (String × String) :=
  match findMatchIdx name.data with
  | none => none
  | some (i, j) =>
    some (String.mk ((name.data.drop i).take 10), String.mk ((name.data.drop j).take 8))

/-- Digits to a number, most significant first. -/
def parseDigits (cs : List Char) : Nat :=
  cs.foldl (fun n c => n * 10 + (c.toNat - 48)) 0

def isLeapYear (y : Nat) : Bool :=
  (y % 4 == 0 && y % 100 != 0) || y % 400 == 0

def daysInMonth (y m : Nat) : Nat :=
  if m == 2 then (if isLeapYear y then 29 else 28)
  else if m == 4 || m == 6 || m == 9 || m == 11 then 30
  else 31

/-- Exactly `\d{4}-\d{2}-\d{2}` (whole string). -/
def dateShape : List Char → Bool
  | [y1, y2, y3, y4, s1, m1, m2, s2, d1, d2] =>
    y1.isDigit && y2.isDigit && y3.isDigit && y4.isDigit && s1 == '-' &&
      m1.isDigit && m2.isDigit && s2 == '-' && d1.isDigit && d2.isDigit
  | _ => false

/-- Exactly `\d{2}\.\d{2}\.\d{2}` (whole string). -/
def timeShape : List Char → Bool
  | [h1, h2, s1, n1, n2, s2, c1, c2] =>
    h1.isDigit && h2.isDigit && s1 == '.' && n1.isDigit && n2.isDigit &&
      s2 == '.' && c1.isDigit && c2.isDigit
  | _ => false

/-- `datetime.strptime(d ++ " " ++ t, "%Y-%m-%d %H.%M.%S")`: `none` models
the `ValueError` raised when the fields are out of range (year 0, month
outside 1-12, day beyond the month's length, hour > 23, minute > 59,
second > 59) or the shape is wrong. -/
def strptimeYmdHms (d t : String) : Option DateTime :=
  if dateShape d.data && timeShape t.data then
    let y := parseDigits (d.data.take 4)
    let mo := parseDigits ((d.data.drop 5).take 2)
    let da := parseDigits ((d.data.drop 8).take 2)
    let h := parseDigits (t.data.take 2)
    let mi := parseDigits ((t.data.drop 3).take 2)
    let se := parseDigits ((t.data.drop 6).take 2)
    if 1 ≤ y ∧ 1 ≤ mo ∧ mo ≤ 12 ∧ 1 ≤ da ∧ da ≤ daysInMonth y mo ∧
        h ≤ 23 ∧ mi ≤ 59 ∧ se ≤ 59 then
      some ⟨y, mo, da, h, mi, se⟩
    else none
  else none

/-- Embedding of `extract_recorded_datetime`: the file's modification time
is the `mtime` parameter; `Except.error` models an uncaught `ValueError`
from `datetime.strptime`. -/
def extract_recorded_datetime (name : String) (mtime : DateTime) : Except String DateTime :=
  match extractTokens name with
  | none => Except.ok mtime
  | some (d, t) =>
    match strptimeYmdHms d t with
    | some dt => Except.ok dt
    | none =>
      Except.error ("ValueError: time data " ++ d ++ " " ++ t ++
        " does not match format %Y-%m-%d %H.%M.%S")

def pad2 (n : Nat) : String := if n < 10 then "0" ++ toString n else toString n

def pad4 (n : Nat) : String :=
  if n < 10 then "000" ++ toString n
  else if n < 100 then "00" ++ toString n
  else if n < 1000 then "0" ++ toString n
  else toString n

/-- `recorded_at.strftime("%Y-%m-%d")` (transcribe.py line 127). -/
def formatYmd (dt : DateTime) : String :=
  pad4 dt.year ++ "-" ++ pad2 dt.month ++ "-" ++ pad2 dt.day

/-- A sample modification time used for concrete witnesses. -/
def sampleMtime : DateTime := ⟨2023, 7, 4, 9, 0, 0⟩

/-! ### TranscriptionService (`format_transcript_as_bullets`, lines 78-104)

A model call is modelled by `attempt : String → Except String (Option String)`:
`Except.error e` is an `errors.APIError` whose `str()` is `e`; `Except.ok t`
is a response whose `.text` attribute is `t` (`none` models a `None` text,
turned into `""` by the source's `response.text or ""`).  `log_error`
(lines 48-51) appends one line per call; the log is modelled as the list of
messages appended, in order. -/

def MODEL_FALLBACKS : List String :=
  ["gemini-3-flash-preview", "gemini-2.5-flash", "gemini-2.5-flash-lite"]

/-- State of the fallback loop when it finishes: the successful result (if
any), the accumulated `fallback_errors` list, the error-log messages
appended so far, and the models attempted, all in order. -/
structure LoopOut where
  result : Option String
  fallbackErrors : List String
  logs : List String
  attempted : List String
deriving DecidableEq, Repr

/-- The `for model_name in MODEL_FALLBACKS` loop of the source: stop at the
first attempt that does not raise `APIError`; for each failing attempt,
record `f"{model_name}: {err}"` in `fallback_errors` and append `str(err)`
to the error log. -/
def fallbackLoop (attempt : String → Except String (Option String)) :
    List String → LoopOut
  | [] => ⟨none, [], [], []⟩
  | m :: rest =>
    match attempt m with
    | Except.ok t => ⟨some (pyStrip (Option.getD t "")), [], [], [m]⟩
    | Except.error err =>
      let out := fallbackLoop attempt rest
      ⟨out.result, (m ++ ": " ++ err) :: out.fallbackErrors, err :: out.logs, m :: out.attempted⟩

/-- `" | ".join(fallback_errors) if fallback_errors else "no model error captured"`. -/
def aggregateDetails (errs : List String) : String :=
  if errs = [] then "no model error captured" else String.intercalate " | " errs

/-- The aggregate failure message built at lines 99-101; `now` stands for
`datetime.now().strftime("%Y-%m-%d %H:%M:%S")`. -/
def aggregateMessage (now audioFile : String) (errs : List String) : String :=
  "[" ++ now ++ "] Failed to process file: " ++ audioFile ++
    ". All model fallbacks failed. Errors: " ++ aggregateDetails errs

/-- Observable outcome of `format_transcript_as_bullets`: the returned
value (`none` models the Python `None` sentinel), the error-log messages
appended, and the models attempted. -/
structure FTBOutcome where
  bullets : Option String
  logs : List String
  attempted : List String
deriving DecidableEq, Repr

/-- Embedding of `format_transcript_as_bullets`.  `readAudio` is the
outcome of `audio_file.read_bytes()` (line 88): if it raises, the whole
call raises before any model is attempted. -/
def format_transcript_as_bullets (attempt : String → Except String (Option String))
    (readAudio : Except String Unit) (audioFile : String) (now : String) :
    Except String FTBOutcome :=
  match readAudio with
  | Except.error e => Except.error e
  | Except.ok _ =>
    let out := fallbackLoop attempt MODEL_FALLBACKS
    match out.result with
    | some t => Except.ok ⟨some t, out.logs, out.attempted⟩
    | none =>
      Except.ok ⟨none, out.logs ++ [aggregateMessage now audioFile out.fallbackErrors],
        out.attempted⟩

/-- Exactly `\d{4}-\d{2}-\d{2} \d{2}:\d{2}:\d{2}` (whole string): the shape
of `datetime.now().strftime("%Y-%m-%d %H:%M:%S")`. -/
def timestampShapeChars : List Char → Bool
  | [y1, y2, y3, y4, a, m1, m2, b, d1, d2, sp, h1, h2, c, n1, n2, e, s1, s2] =>
    y1.isDigit && y2.isDigit && y3.isDigit && y4.isDigit && a == '-' &&
      m1.isDigit && m2.isDigit && b == '-' && d1.isDigit && d2.isDigit &&
      sp == ' ' && h1.isDigit && h2.isDigit && c == ':' && n1.isDigit &&
      n2.isDigit && e == ':' && s1.isDigit && s2.isDigit
  | _ => false

/-- A log line of the form `[<YYYY-MM-DD HH:MM:SS>] <message>` (the format
the spec asserts for every error-log record). -/
def isTimestampLine (s : String) : Bool :=
  match s.data with
  | c :: rest =>
    (c == '[') && timestampShapeChars (rest.take 19) && ((rest.drop 19).take 2 == [']', ' '])
  | [] => false

/-! ### BucketProcessor (`process_audio`, lines 119-133)

One per-file step.  Filesystem effects are explicit: `noteBefore` is the
prior state of the target note file, and the result records the new note
state, whether `send2trash` ran, the log messages appended and the models
attempted.  `Except.error` models an exception escaping `process_audio`. -/

structure ProcessResult where
  targetName : String
  bullets : Option String
  noteContent : Option String
  trashed : Bool
  logs : List String
  attempted : List String
deriving DecidableEq, Repr

/-- Embedding of `process_audio`.  `ensure_local_file` is best-effort and
affects no modelled state; `read_audio` models `read_bytes()`. -/
def process_audio (attempt : String → Except String (Option String))
    (audioName : String) (mtime : DateTime) (readAudio : Except String Unit)
    (noteBefore : Option String) (now : String) : Except String ProcessResult :=
  match extract_recorded_datetime audioName mtime with
  | Except.error e => Except.error e
  | Except.ok recordedAt =>
    let targetName := formatYmd recordedAt ++ ".md"
    match format_transcript_as_bullets attempt readAudio audioName now with
    | Except.error e => Except.error e
    | Except.ok out =>
      match out.bullets with
      | none => Except.ok ⟨targetName, none, noteBefore, false, out.logs, out.attempted⟩
      | some t =>
        Except.ok ⟨targetName, some t, append_with_spacing noteBefore t, true,
          out.logs, out.attempted⟩

/-! ### Directory scan (`main`, lines 136-147) -/

/-- One directory entry: its final name and whether it is a regular file. -/
structure DirEntry where
  name : String
  isFile : Bool
deriving DecidableEq, Repr

/-- Python `Path.suffix`: the substring from the last dot onwards, provided
that dot is neither the first nor the last character of the name. -/
def lastDotIdx : List Char → Option Nat
  | [] => none
  | c :: rest =>
    match lastDotIdx rest with
    | some i => some (i + 1)
    | none => if c == '.' then some 0 else none

def pySuffix (name : String) : String :=
  match lastDotIdx name.data with
  | none => ""
  | some i => if 0 < i ∧ i + 1 < name.data.length then String.mk (name.data.drop i) else ""

/-- The eligibility test of `main`: regular file, not hidden, suffix
`.m4a` case-insensitively. -/
def eligibleEntry (e : DirEntry) : Bool :=
  e.isFile && !(e.name.startsWith ".") && ((pySuffix e.name).toLower == ".m4a")

def entryLe (a b : DirEntry) : Prop := a.name ≤ b.name

instance : DecidableRel entryLe := fun a b => inferInstanceAs (Decidable (a.name ≤ b.name))

instance : IsTotal DirEntry entryLe := ⟨fun a b => le_total a.name b.name⟩

instance : IsTrans DirEntry entryLe := ⟨fun _ _ _ hab hbc => le_trans hab hbc⟩

/-- The files `main` hands to `process_audio` for one bucket, in order:
`sorted(source_dir.iterdir())` filtered by the eligibility test.  The
source directory is `none` when it does not exist (skipped silently). -/
def processedEntries (source : Option (List DirEntry)) : List DirEntry :=
  match source with
  | none => []
  | some entries => (List.insertionSort entryLe entries).filter eligibleEntry

/-! ### Configuration (`required_env` lines 27-31, `load_config` lines 34-45)

The environment is a map from variable names to `Option String` (`none`
models an unset variable, exactly `os.getenv`'s `None`).  `Except.error`
models the `RuntimeError` raised at startup. -/

/-- Embedding of `required_env`: Python's `if not value` treats both `None`
and the empty string as missing. -/
def required_env (env : String → Option String) (name : String) : Except String String :=
  match env name with
  | none => Except.error ("Missing required env var: " ++ name)
  | some value =>
    if value = "" then Except.error ("Missing required env var: " ++ name)
    else Except.ok value

structure Config where
  apiKey : String
  notesSource : String
  courseSource : String
  notesTarget : String
  courseTarget : String
  errorLog : String
deriving DecidableEq, Repr

def requiredNames : List String :=
  ["GEMINI_API_KEY", "NOTES_VOICE_MEMOS_DIR", "COURSE_VOICE_MEMOS_DIR",
   "OBSIDIAN_NOTES_DIR", "OBSIDIAN_COURSE_DIR", "TRANSCRIBE_ERROR_LOG"]

/-- Embedding of `load_config`: reads the six required variables in source
order; the first missing one aborts startup.  `expanduser` and client
construction carry no modelled state. -/
def load_config (env : String → Option String) : Except String Config :=
  match required_env env "GEMINI_API_KEY" with
  | Except.error e => Except.error e
  | Except.ok apiKey =>
    match required_env env "NOTES_VOICE_MEMOS_DIR" with
    | Except.error e => Except.error e
    | Except.ok notesSource =>
      match required_env env "COURSE_VOICE_MEMOS_DIR" with
      | Except.error e => Except.error e
      | Except.ok courseSource =>
        match required_env env "OBSIDIAN_NOTES_DIR" with
        | Except.error e => Except.error e
        | Except.ok notesTarget =>
          match required_env env "OBSIDIAN_COURSE_DIR" with
          | Except.error e => Except.error e
          | Except.ok courseTarget =>
            match required_env env "TRANSCRIBE_ERROR_LOG" with
            | Except.error e => Except.error e
            | Except.ok errorLog =>
              Except.ok ⟨apiKey, notesSource, courseSource, notesTarget, courseTarget, errorLog⟩

/-! ### Concrete collaborators used by the witnesses -/

/-- An attempt function on which every model call raises `APIError`. -/
def failAttempt : String → Except String (Option String) := fun m =>
  Except.error ("E " ++ m)

/-- An attempt function on which the first model fails and the rest succeed. -/
def oneFailAttempt : String → Except String (Option String) := fun m =>
  if m == "gemini-3-flash-preview" then Except.error "503 model overloaded"
  else Except.ok (some "  - bought milk  ")

/-- An attempt function whose first answer is whitespace-only text. -/
def blankAttempt : String → Except String (Option String) := fun _ =>
  Except.ok (some "   ")

/-- A directory listing exercising each eligibility condition. -/
def demoEntries : List DirEntry :=
  [⟨"b.M4A", true⟩, ⟨"a.m4a", true⟩, ⟨".h.m4a", true⟩, ⟨"c.mp3", true⟩, ⟨"d.m4a", false⟩]

/-- An environment whose API key is set to the empty string. -/
def envMissingKey : String → Option String := fun n =>
  if n == "GEMINI_API_KEY" then some "" else some "x"

/-! ### Helper lemmas -/

theorem pyStrip_empty : pyStrip "" = "" := rfl

theorem dropWhile_head_false {α : Type} (p : α → Bool) :
    ∀ (l : List α) (c : α) (cs : List α), l.dropWhile p = c :: cs → p c = false
  | [], c, cs, h => by simp [List.dropWhile] at h
  | a :: rest, c, cs, h => by
    rw [List.dropWhile_cons] at h
    by_cases ha : p a = true
    · rw [if_pos ha] at h
      exact dropWhile_head_false p rest c cs h
    · rw [if_neg ha] at h
      cases h
      simpa using ha

theorem pyStrip_last_not_space (s : String) (h : pyStrip s ≠ "") :
    ∃ c rest, (pyStrip s).data.reverse = c :: rest ∧ pySpace c = false := by
  cases hd : ((s.data.dropWhile pySpace).reverse).dropWhile pySpace with
  | nil =>
    refine absurd ?_ h
    show String.mk (pyStripList s.data) = ""
    unfold pyStripList
    rw [hd]
    rfl
  | cons c cs =>
    refine ⟨c, cs, ?_, dropWhile_head_false pySpace _ c cs hd⟩
    show (pyStripList s.data).reverse = c :: cs
    unfold pyStripList
    rw [List.reverse_reverse]
    exact hd

theorem fallbackLoop_all_fail (attempt : String → Except String (Option String))
    (errF : String → String) :
    ∀ ms : List String, (∀ m ∈ ms, attempt m = Except.error (errF m)) →
      fallbackLoop attempt ms =
        ⟨none, ms.map (fun m => m ++ ": " ++ errF m), ms.map errF, ms⟩
  | [], _ => by simp [fallbackLoop]
  | m :: rest, h => by
    have hm := h m (List.mem_cons_self m rest)
    have ih := fallbackLoop_all_fail attempt errF rest
      (fun b hb => h b (List.mem_cons_of_mem m hb))
    simp [fallbackLoop, hm, ih]

theorem fallbackLoop_first_success (attempt : String → Except String (Option String))
    (errF : String → String) (m : String) (t : Option String) (after : List String)
    (hm : attempt m = Except.ok t) :
    ∀ before : List String, (∀ b ∈ before, attempt b = Except.error (errF b)) →
      fallbackLoop attempt (before ++ m :: after) =
        ⟨some (pyStrip (Option.getD t "")), before.map (fun b => b ++ ": " ++ errF b),
          before.map errF, before ++ [m]⟩
  | [], _ => by simp [fallbackLoop, hm]
  | b :: rest, h => by
    have hb := h b (List.mem_cons_self b rest)
    have ih := fallbackLoop_first_success attempt errF m t after hm rest
      (fun x hx => h x (List.mem_cons_of_mem b hx))
    simp [fallbackLoop, hb, ih]

theorem endsWithOneNewline_append (x : String)
    (h : ∃ c rest, x.data.reverse = c :: rest ∧ pySpace c = false) :
    endsWithOneNewline (x ++ "\n") = true := by
  obtain ⟨c, rest, hrev, hc⟩ := h
  have hne : (c == '\n') = false := by
    cases hcc : c == '\n' with
    | false => rfl
    | true =>
      rw [show c = '\n' from beq_iff_eq.mp hcc] at hc
      simp [pySpace] at hc
  have hdata : (x ++ "\n").data.reverse = '\n' :: c :: rest := by
    rw [String.data_append]
    rw [show ("\n" : String).data = ['\n'] from rfl]
    rw [List.reverse_append, hrev]
    rfl
  unfold endsWithOneNewline
  rw [hdata]
  simp [hne]

theorem timestampShapeChars_length (cs : List Char) (h : timestampShapeChars cs = true) :
    cs.length = 19 := by
  unfold timestampShapeChars at h
  split at h
  · simp_all
  · simp at h

theorem isTimestampLine_aggregate (now file : String) (errs : List String)
    (hNow : timestampShapeChars now.data = true) :
    isTimestampLine (aggregateMessage now file errs) = true := by
  have hlen : now.data.length = 19 := timestampShapeChars_length now.data hNow
  have e1 : ("[" : String).data = ['['] := rfl
  have e2 : ("] Failed to process file: " : String).data =
      ']' :: ' ' :: ("Failed to process file: " : String).data := rfl
  have hdata : (aggregateMessage now file errs).data =
      '[' :: (now.data ++ (']' :: ' ' :: (("Failed to process file: " : String).data ++
        (file.data ++ ((". All model fallbacks failed. Errors: " : String).data ++
          (aggregateDetails errs).data))))) := by
    unfold aggregateMessage
    simp only [String.data_append, e1, e2, List.cons_append, List.append_assoc, List.nil_append]
  unfold isTimestampLine
  rw [hdata]
  simp only [beq_self_eq_true, Bool.true_and]
  rw [← hlen, List.take_left, List.drop_left]
  simp [hNow]

/-! ### Claim theorems -/

/-- C1: if every model in the ordered fallback list fails with a
service-level error, `process_audio` returns normally carrying the `None`
sentinel from the transcription step (`bullets = none`), the target note
file is neither created nor modified (`noteContent = noteBefore`), the
source file is not moved to trash (`trashed = false`), and the error log
gains the per-model records plus exactly one aggregate record containing
the timestamp, the file identifier, and all model-name/error-string pairs
joined by `" | "`. -/
theorem all_models_fail_leaves_file_and_logs_once
    (attempt : String → Except String (Option String)) (errF : String → String)
    (name now : String) (mtime dt : DateTime) (noteBefore : Option String)
    (hFail : ∀ m ∈ MODEL_FALLBACKS, attempt m = Except.error (errF m))
    (hDt : extract_recorded_datetime name mtime = Except.ok dt) :
    process_audio attempt name mtime (Except.ok ()) noteBefore now =
      Except.ok ⟨formatYmd dt ++ ".md", none, noteBefore, false,
        MODEL_FALLBACKS.map errF ++
          [aggregateMessage now name (MODEL_FALLBACKS.map (fun m => m ++ ": " ++ errF m))],
        MODEL_FALLBACKS⟩ := by
  have hLoop := fallbackLoop_all_fail attempt errF MODEL_FALLBACKS hFail
  simp [process_audio, hDt, format_transcript_as_bullets, hLoop]

/-- Witness for C1 at a concrete failing attempt function. -/
theorem all_models_fail_leaves_file_and_logs_once_witness :
    process_audio failAttempt "memo.m4a" sampleMtime (Except.ok ()) (some "- Old item\n")
        "2024-01-01 00:00:00" =
      Except.ok ⟨formatYmd sampleMtime ++ ".md", none, some "- Old item\n", false,
        MODEL_FALLBACKS.map (fun m => "E " ++ m) ++
          [aggregateMessage "2024-01-01 00:00:00" "memo.m4a"
            (MODEL_FALLBACKS.map (fun m => m ++ ": " ++ ("E " ++ m)))],
        MODEL_FALLBACKS⟩ :=
  all_models_fail_leaves_file_and_logs_once failAttempt (fun m => "E " ++ m) "memo.m4a"
    "2024-01-01 00:00:00" sampleMtime sampleMtime (some "- Old item\n")
    (fun _ _ => rfl) (by decide)

/-- C10: when all model attempts fail, the error log receives, in order,
one record per model holding only that model's error string (no model name,
no timestamp), in fallback order, followed last by the single aggregate
record. -/
theorem all_fail_log_order
    (attempt : String → Except String (Option String)) (errF : String → String)
    (name now : String) (mtime dt : DateTime) (noteBefore : Option String)
    (hFail : ∀ m ∈ MODEL_FALLBACKS, attempt m = Except.error (errF m))
    (hDt : extract_recorded_datetime name mtime = Except.ok dt) :
    (process_audio attempt name mtime (Except.ok ()) noteBefore now).map ProcessResult.logs =
      Except.ok [errF "gemini-3-flash-preview", errF "gemini-2.5-flash",
        errF "gemini-2.5-flash-lite",
        aggregateMessage now name
          ["gemini-3-flash-preview: " ++ errF "gemini-3-flash-preview",
           "gemini-2.5-flash: " ++ errF "gemini-2.5-flash",
           "gemini-2.5-flash-lite: " ++ errF "gemini-2.5-flash-lite"]] := by
  have hLoop := fallbackLoop_all_fail attempt errF MODEL_FALLBACKS hFail
  simp [process_audio, hDt, format_transcript_as_bullets, hLoop, Except.map]
  simp only [ MODEL_FALLBACKS, List.map_cons, List.map_nil, List.cons_append, List.nil_append]
  rw [show ("gemini-3-flash-preview" : String) ++ ": " = "gemini-3-flash-preview: " from rfl,
    show ("gemini-2.5-flash" : String) ++ ": " = "gemini-2.5-flash: " from rfl,
    show ("gemini-2.5-flash-lite" : String) ++ ": " = "gemini-2.5-flash-lite: " from rfl]

/-- Witness for C10 at a concrete failing attempt function. -/
theorem all_fail_log_order_witness :
    (process_audio failAttempt "memo.m4a" sampleMtime (Except.ok ()) none
        "2024-01-01 00:00:00").map ProcessResult.logs =
      Except.ok ["E gemini-3-flash-preview", "E gemini-2.5-flash", "E gemini-2.5-flash-lite",
        aggregateMessage "2024-01-01 00:00:00" "memo.m4a"
          ["gemini-3-flash-preview: " ++ "E gemini-3-flash-preview",
           "gemini-2.5-flash: " ++ "E gemini-2.5-flash",
           "gemini-2.5-flash-lite: " ++ "E gemini-2.5-flash-lite"]] :=
  all_fail_log_order failAttempt (fun m => "E " ++ m) "memo.m4a" "2024-01-01 00:00:00"
    sampleMtime sampleMtime none (fun _ _ => rfl) (by decide)

/-- C6: if the models before `m` in the fallback list fail and `m`
succeeds, no model after `m` is attempted (`attempted = before ++ [m]`),
the stripped response text becomes the result (an empty string included),
the note receives the append, and the source file is trashed. -/
theorem first_success_stops_and_trashes
    (attempt : String → Except String (Option String)) (errF : String → String)
    (before after : List String) (m : String) (t : Option String)
    (name now : String) (mtime dt : DateTime) (noteBefore : Option String)
    (hList : MODEL_FALLBACKS = before ++ m :: after)
    (hBefore : ∀ b ∈ before, attempt b = Except.error (errF b))
    (hm : attempt m = Except.ok t)
    (hDt : extract_recorded_datetime name mtime = Except.ok dt) :
    process_audio attempt name mtime (Except.ok ()) noteBefore now =
      Except.ok ⟨formatYmd dt ++ ".md", some (pyStrip (Option.getD t "")),
        append_with_spacing noteBefore (pyStrip (Option.getD t "")), true,
        before.map errF, before ++ [m]⟩ := by
  have hLoop := fallbackLoop_first_success attempt errF m t after hm before hBefore
  simp [process_audio, hDt, format_transcript_as_bullets, hList, hLoop]

/-- Witness for C6: the first model fails, the second succeeds, the third
is never attempted. -/
theorem first_success_stops_and_trashes_witness :
    process_audio oneFailAttempt "Voice 2024-03-01 at 14.30.05.m4a" sampleMtime (Except.ok ())
        (some "- Old item\n") "2024-01-01 00:00:00" =
      Except.ok ⟨formatYmd ⟨2024, 3, 1, 14, 30, 5⟩ ++ ".md",
        some (pyStrip (Option.getD (some "  - bought milk  ") "")),
        append_with_spacing (some "- Old item\n")
          (pyStrip (Option.getD (some "  - bought milk  ") "")), true,
        ["gemini-3-flash-preview"].map (fun _ => "503 model overloaded"),
        ["gemini-3-flash-preview"] ++ ["gemini-2.5-flash"]⟩ :=
  first_success_stops_and_trashes oneFailAttempt (fun _ => "503 model overloaded")
    ["gemini-3-flash-preview"] ["gemini-2.5-flash-lite"] "gemini-2.5-flash"
    (some "  - bought milk  ") "Voice 2024-03-01 at 14.30.05.m4a" "2024-01-01 00:00:00"
    sampleMtime ⟨2024, 3, 1, 14, 30, 5⟩ (some "- Old item\n")
    (by decide)
    (by intro b hb; simp at hb; subst hb; rfl)
    (by decide) (by decide)

/-- C8: when a model succeeds with empty or whitespace-only text, the note
file is left untouched (the append is a no-op) while the source file is
still moved to trash. -/
theorem empty_transcript_still_trashes
    (attempt : String → Except String (Option String)) (errF : String → String)
    (before after : List String) (m : String) (t : Option String)
    (name now : String) (mtime dt : DateTime) (noteBefore : Option String)
    (hList : MODEL_FALLBACKS = before ++ m :: after)
    (hBefore : ∀ b ∈ before, attempt b = Except.error (errF b))
    (hm : attempt m = Except.ok t)
    (hEmpty : pyStrip (Option.getD t "") = "")
    (hDt : extract_recorded_datetime name mtime = Except.ok dt) :
    process_audio attempt name mtime (Except.ok ()) noteBefore now =
      Except.ok ⟨formatYmd dt ++ ".md", some "", noteBefore, true,
        before.map errF, before ++ [m]⟩ := by
  have hLoop := fallbackLoop_first_success attempt errF m t after hm before hBefore
  have hApp : append_with_spacing noteBefore "" = noteBefore := by
    simp [append_with_spacing, pyStrip_empty]
  simp [process_audio, hDt, format_transcript_as_bullets, hList, hLoop, hEmpty, hApp]

/-- Witness for C8: the first model answers whitespace-only text; the note
stays as it was and the file is still trashed. -/
theorem empty_transcript_still_trashes_witness :
    process_audio blankAttempt "memo.m4a" sampleMtime (Except.ok ())
        (some "- Old item\n") "2024-01-01 00:00:00" =
      Except.ok ⟨formatYmd sampleMtime ++ ".md", some "", some "- Old item\n", true,
        List.map (fun _ => "") ([] : List String),
        ([] : List String) ++ ["gemini-3-flash-preview"]⟩ :=
  empty_transcript_still_trashes blankAttempt (fun _ => "") []
    ["gemini-2.5-flash", "gemini-2.5-flash-lite"] "gemini-3-flash-preview" (some "   ")
    "memo.m4a" "2024-01-01 00:00:00" sampleMtime sampleMtime (some "- Old item\n")
    (by decide) (by intro b hb; simp at hb) (by decide) (by decide) (by decide)

/-- C2: `append_with_spacing` behaves exactly as the spec's NoteAppender
rules: no-op on whitespace-only text, fresh write `trim(text) ++ "\n"` on a
missing or blank file, and `rstrip(existing, "\n") ++ "\n\n" ++ trim(text)
++ "\n"` otherwise; whenever it writes, the file ends with exactly one
trailing newline; appending "A" then "B" to a fresh file gives
`"A\n\nB\n"`. -/
theorem append_with_spacing_matches_spec (current : Option String) (addition : String) :
    append_with_spacing current addition = noteAppenderSpec current addition ∧
    (∀ r, append_with_spacing current addition = some r → pyStrip addition ≠ "" →
      endsWithOneNewline r = true) ∧
    append_with_spacing (append_with_spacing none "A") "B" = some "A\n\nB\n" := by
  refine ⟨?_, ?_, by decide⟩
  · unfold append_with_spacing noteAppenderSpec
    by_cases h : pyStrip addition = ""
    · simp [h]
    · cases current with
      | none => simp [h, pyStrip_empty]
      | some existing =>
        by_cases h2 : pyStrip existing = "" <;> simp [h, h2]
  · intro r hr hne
    obtain ⟨c, rest, hrev, hc⟩ := pyStrip_last_not_space addition hne
    by_cases h2 : pyStrip (Option.getD current "") = ""
    · simp [append_with_spacing, hne, h2] at hr
      rw [← hr]
      exact endsWithOneNewline_append _ ⟨c, rest, hrev, hc⟩
    · simp [append_with_spacing, hne, h2] at hr
      rw [← hr]
      refine endsWithOneNewline_append
        ((rstripNewlines (Option.getD current "") ++ "\n\n") ++ pyStrip addition)
        ⟨c, rest ++ (rstripNewlines (Option.getD current "") ++ "\n\n").data.reverse, ?_, hc⟩
      rw [String.data_append, List.reverse_append, hrev]
      rfl

/-- Witness for C2 at a concrete prior note and transcript. -/
theorem append_with_spacing_matches_spec_witness :
    append_with_spacing (some "A\n") " B " = noteAppenderSpec (some "A\n") " B " ∧
      endsWithOneNewline "A\n\nB\n" = true :=
  ⟨(append_with_spacing_matches_spec (some "A\n") " B ").1,
    (append_with_spacing_matches_spec (some "A\n") " B ").2.1 "A\n\nB\n" (by decide) (by decide)⟩

/-- C3 counterexample: the claim says `extract_recorded_datetime` never
fails, but a filename whose matched tokens are not a valid calendar
date/time (month 13, hour 25) makes the embedded `datetime.strptime` raise
`ValueError`, which the source does not catch. -/
theorem extract_recorded_datetime_raises_on_invalid_tokens :
    (extract_recorded_datetime "2024-13-01 at 25.61.61.m4a" sampleMtime).isOk = false := by
  decide

/-- C3 amended: `extract_recorded_datetime` returns the parsed date/time
when the filename's matched tokens form a valid datetime, returns the
file's modification time when the pattern does not match at all, and fails
exactly when the pattern matches with invalid field values. -/
theorem extract_recorded_datetime_amended (name : String) (mtime : DateTime) :
    (extractTokens name = none → extract_recorded_datetime name mtime = Except.ok mtime) ∧
    (∀ d t dt, extractTokens name = some (d, t) → strptimeYmdHms d t = some dt →
      extract_recorded_datetime name mtime = Except.ok dt) ∧
    ((extract_recorded_datetime name mtime).isOk = false ↔
      ∃ d t, extractTokens name = some (d, t) ∧ strptimeYmdHms d t = none) := by
  refine ⟨fun h => by simp [extract_recorded_datetime, h],
    fun d t dt h1 h2 => by simp [extract_recorded_datetime, h1, h2], ?_⟩
  cases hT : extractTokens name with
  | none => simp [extract_recorded_datetime, hT, Except.isOk, Except.toBool]
  | some p =>
    obtain ⟨d, t⟩ := p
    cases hS : strptimeYmdHms d t with
    | none =>
      simp [extract_recorded_datetime, hT, hS, Except.isOk, Except.toBool]
      exact ⟨d, t, ⟨rfl, rfl⟩, hS⟩
    | some dt => simp [extract_recorded_datetime, hT, hS, Except.isOk, Except.toBool]

/-- Witness for C3 amended: a regular voice-memo filename parses to its
embedded recording time. -/
theorem extract_recorded_datetime_amended_witness :
    extract_recorded_datetime "Voice 2024-03-01 at 14.30.05.m4a" sampleMtime =
      Except.ok ⟨2024, 3, 1, 14, 30, 5⟩ :=
  (extract_recorded_datetime_amended "Voice 2024-03-01 at 14.30.05.m4a" sampleMtime).2.1
    "2024-03-01" "14.30.05" ⟨2024, 3, 1, 14, 30, 5⟩ (by decide) (by decide)

/-- C4 counterexample: the claim says no exception escapes the per-file
step, but a filename with pattern-matching yet invalid date tokens raises
out of `process_audio` (there is no try/except around date resolution). -/
theorem process_audio_exception_escapes :
    (process_audio (fun _ => Except.ok (some "- hi")) "2024-13-01 at 25.61.61.m4a" sampleMtime
      (Except.ok ()) none "2024-01-01 00:00:00").isOk = false := by
  decide

/-- C4 amended: only service-level model errors are contained: whenever
date resolution succeeds and the audio bytes are readable, `process_audio`
returns normally for every possible combination of model outcomes; other
exceptions (invalid matched date tokens, unreadable bytes) propagate. -/
theorem process_audio_api_errors_contained
    (attempt : String → Except String (Option String)) (name now : String)
    (mtime dt : DateTime) (noteBefore : Option String)
    (hDt : extract_recorded_datetime name mtime = Except.ok dt) :
    (process_audio attempt name mtime (Except.ok ()) noteBefore now).isOk = true := by
  cases hr : (fallbackLoop attempt MODEL_FALLBACKS).result with
  | none => simp [process_audio, hDt, format_transcript_as_bullets, hr, Except.isOk, Except.toBool]
  | some t => simp [process_audio, hDt, format_transcript_as_bullets, hr, Except.isOk, Except.toBool]

/-- Witness for C4 amended: all models failing still returns normally. -/
theorem process_audio_api_errors_contained_witness :
    (process_audio failAttempt "memo.m4a" sampleMtime (Except.ok ()) none
      "2024-01-01 00:00:00").isOk = true :=
  process_audio_api_errors_contained failAttempt "memo.m4a" "2024-01-01 00:00:00"
    sampleMtime sampleMtime none (by decide)

/-- C5 counterexample: the claim says every error-log record is of the
form `[<timestamp>] <message>`, but the per-model records are the bare
error strings: a run on which every model fails with "quota exceeded"
appends three records that carry no bracketed timestamp prefix. -/
theorem per_model_log_record_lacks_timestamp :
    format_transcript_as_bullets (fun _ => Except.error "quota exceeded") (Except.ok ())
        "memo.m4a" "2024-01-01 00:00:00" =
      Except.ok ⟨none,
        ["quota exceeded", "quota exceeded", "quota exceeded",
         "[2024-01-01 00:00:00] Failed to process file: memo.m4a. All model fallbacks failed. Errors: gemini-3-flash-preview: quota exceeded | gemini-2.5-flash: quota exceeded | gemini-2.5-flash-lite: quota exceeded"],
        MODEL_FALLBACKS⟩ ∧
      isTimestampLine "quota exceeded" = false :=
  ⟨by decide, by decide⟩

/-- C5 amended: only the aggregate failure record carries the bracketed
`[<YYYY-MM-DD HH:MM:SS>]` prefix; the per-model records are appended as the
raw error strings with no timestamp added by `log_error`. -/
theorem only_aggregate_record_timestamped
    (attempt : String → Except String (Option String)) (errF : String → String)
    (name now : String)
    (hFail : ∀ m ∈ MODEL_FALLBACKS, attempt m = Except.error (errF m))
    (hNow : timestampShapeChars now.data = true) :
    format_transcript_as_bullets attempt (Except.ok ()) name now =
      Except.ok ⟨none,
        MODEL_FALLBACKS.map errF ++
          [aggregateMessage now name (MODEL_FALLBACKS.map (fun m => m ++ ": " ++ errF m))],
        MODEL_FALLBACKS⟩ ∧
    isTimestampLine (aggregateMessage now name
      (MODEL_FALLBACKS.map (fun m => m ++ ": " ++ errF m))) = true := by
  have hLoop := fallbackLoop_all_fail attempt errF MODEL_FALLBACKS hFail
  exact ⟨by simp [format_transcript_as_bullets, hLoop],
    isTimestampLine_aggregate now name _ hNow⟩

/-- Witness for C5 amended at a concrete failing attempt and timestamp. -/
theorem only_aggregate_record_timestamped_witness :
    (format_transcript_as_bullets failAttempt (Except.ok ()) "memo.m4a" "2024-01-01 00:00:00" =
      Except.ok ⟨none,
        MODEL_FALLBACKS.map (fun m => "E " ++ m) ++
          [aggregateMessage "2024-01-01 00:00:00" "memo.m4a"
            (MODEL_FALLBACKS.map (fun m => m ++ ": " ++ ("E " ++ m)))],
        MODEL_FALLBACKS⟩) ∧
    isTimestampLine (aggregateMessage "2024-01-01 00:00:00" "memo.m4a"
      (MODEL_FALLBACKS.map (fun m => m ++ ": " ++ ("E " ++ m)))) = true :=
  only_aggregate_record_timestamped failAttempt (fun m => "E " ++ m) "memo.m4a"
    "2024-01-01 00:00:00" (fun _ _ => rfl) (by decide)

/-- C7: for an existing bucket directory the entries are visited in sorted
order, and an entry is processed iff it is a regular file, not hidden (no
leading dot), and has case-insensitive suffix ".m4a"; a missing directory
yields no processing and no error. -/
theorem bucket_scan_sorted_and_filtered (source : Option (List DirEntry)) :
    (source = none → processedEntries source = []) ∧
    (∀ entries, source = some entries → ∀ e : DirEntry,
      (e ∈ processedEntries source ↔
        e ∈ entries ∧ e.isFile = true ∧ e.name.startsWith "." = false ∧
          (pySuffix e.name).toLower = ".m4a")) ∧
    List.Pairwise entryLe (processedEntries source) := by
  refine ⟨fun h => by simp [processedEntries, h], fun entries h e => ?_, ?_⟩
  · subst h
    rw [show processedEntries (some entries) =
      (List.insertionSort entryLe entries).filter eligibleEntry from rfl]
    rw [List.mem_filter]
    rw [(List.perm_insertionSort entryLe entries).mem_iff]
    simp [eligibleEntry, and_assoc]
  · cases source with
    | none => simp [processedEntries]
    | some entries =>
      exact List.Pairwise.filter _ (List.sorted_insertionSort entryLe entries)

/-- Witness for C7 on a concrete directory listing. -/
theorem bucket_scan_sorted_and_filtered_witness :
    (⟨"b.M4A", true⟩ : DirEntry) ∈ processedEntries (some demoEntries) ↔
      (⟨"b.M4A", true⟩ : DirEntry) ∈ demoEntries ∧
        (DirEntry.mk "b.M4A" true).isFile = true ∧
        (DirEntry.mk "b.M4A" true).name.startsWith "." = false ∧
        (pySuffix (DirEntry.mk "b.M4A" true).name).toLower = ".m4a" :=
  (bucket_scan_sorted_and_filtered (some demoEntries)).2.1 demoEntries rfl ⟨"b.M4A", true⟩

/-- C9: a required environment variable that is set to the empty string is
treated exactly like an unset one: `required_env` raises the startup error
for absent or empty values and returns the value otherwise, and
`load_config` aborts whenever any of the six required names is absent or
empty. -/
theorem required_env_empty_equals_unset (env : String → Option String) :
    (∀ name, (env name = none ∨ env name = some "") →
      required_env env name = Except.error ("Missing required env var: " ++ name)) ∧
    (∀ name v, env name = some v → v ≠ "" → required_env env name = Except.ok v) ∧
    (∀ name, name ∈ requiredNames → (env name = none ∨ env name = some "") →
      (load_config env).isOk = false) := by
  have h1 : ∀ name, (env name = none ∨ env name = some "") →
      required_env env name = Except.error ("Missing required env var: " ++ name) := by
    intro name h
    rcases h with h | h <;> simp [required_env, h]
  refine ⟨h1, ?_, ?_⟩
  · intro name v hv hne
    simp [required_env, hv, hne]
  · intro name hmem hbad
    have hfail := h1 name hbad
    simp only [requiredNames, List.mem_cons, List.not_mem_nil, or_false] at hmem
    rcases hmem with rfl | rfl | rfl | rfl | rfl | rfl
    · simp [load_config, hfail, Except.isOk, Except.toBool]
    · cases hk1 : required_env env "GEMINI_API_KEY" <;>
        simp [load_config, hk1, hfail, Except.isOk, Except.toBool]
    · cases hk1 : required_env env "GEMINI_API_KEY" <;>
      cases hk2 : required_env env "NOTES_VOICE_MEMOS_DIR" <;>
        simp [load_config, hk1, hk2, hfail, Except.isOk, Except.toBool]
    · cases hk1 : required_env env "GEMINI_API_KEY" <;>
      cases hk2 : required_env env "NOTES_VOICE_MEMOS_DIR" <;>
      cases hk3 : required_env env "COURSE_VOICE_MEMOS_DIR" <;>
        simp [load_config, hk1, hk2, hk3, hfail, Except.isOk, Except.toBool]
    · cases hk1 : required_env env "GEMINI_API_KEY" <;>
      cases hk2 : required_env env "NOTES_VOICE_MEMOS_DIR" <;>
      cases hk3 : required_env env "COURSE_VOICE_MEMOS_DIR" <;>
      cases hk4 : required_env env "OBSIDIAN_NOTES_DIR" <;>
        simp [load_config, hk1, hk2, hk3, hk4, hfail, Except.isOk, Except.toBool]
    · cases hk1 : required_env env "GEMINI_API_KEY" <;>
      cases hk2 : required_env env "NOTES_VOICE_MEMOS_DIR" <;>
      cases hk3 : required_env env "COURSE_VOICE_MEMOS_DIR" <;>
      cases hk4 : required_env env "OBSIDIAN_NOTES_DIR" <;>
      cases hk5 : required_env env "OBSIDIAN_COURSE_DIR" <;>
        simp [load_config, hk1, hk2, hk3, hk4, hk5, hfail, Except.isOk, Except.toBool]

/-- Witness for C9: an environment whose API key is the empty string makes
startup abort. -/
theorem required_env_empty_equals_unset_witness :
    required_env envMissingKey "GEMINI_API_KEY" =
        Except.error ("Missing required env var: " ++ "GEMINI_API_KEY") ∧
      (load_config envMissingKey).isOk = false :=
  ⟨(required_env_empty_equals_unset envMissingKey).1 "GEMINI_API_KEY" (Or.inr rfl),
    (required_env_empty_equals_unset envMissingKey).2.2 "GEMINI_API_KEY" (by decide)
      (Or.inr rfl)⟩
